import Mathlib

/-!
Verification of the Smart Lock Manager integration's slot model and
reconciliation logic, shallowly embedded from
`custom_components/smart_lock_manager/models/lock.py`,
`custom_components/smart_lock_manager/__init__.py` and the service modules.

Modelling conventions:
* A Python `datetime` is modelled by `DateTime`: a totally ordered timestamp
  `stamp` together with the `hour` and `weekday` projections the code reads.
  Stored `start_date`/`end_date` values are compared only through `<`/`>`,
  so they are kept as bare `Int` timestamps.
* Python truthiness of an optional string (`None` and `""` are falsy) is
  `optStrTruthy`; truthiness of an optional list is `optListTruthy`.
* Python dicts keyed by slot number become association lists
  `List (Int × CodeSlot)`; Python guarantees the keys are distinct, which
  appears as a `Nodup` hypothesis where a proof needs it.
* Methods that mutate state become functions returning the updated value.
-/

namespace SmartLockManager

/-- Model of a Python `datetime`: an ordered timestamp plus the `hour`
(0-23) and `weekday()` (0 = Monday) projections used by the code. -/
structure DateTime where
  stamp : Int
  hour : Int
  weekday : Int
deriving DecidableEq, Repr

/-- Python truthiness for `Optional[str]`: `None` and `""` are falsy. -/
def optStrTruthy : Option String → Bool
  | none => false
  | some s => !(s == "")

/-- Python truthiness for `Optional[List[int]]`: `None` and `[]` are falsy. -/
def optListTruthy : Option (List Int) → Bool
  | none => false
  | some l => !l.isEmpty

/-- `models/lock.py::CodeSlot` — one code slot of a smart lock.
Datetime-valued fields are kept as `Int` timestamps (only their order is
ever used). -/
structure CodeSlot where
  slot_number : Int
  pin_code : Option String := none
  is_active : Bool := false
  is_synced : Bool := false
  user_name : Option String := none
  sync_attempts : Int := 0
  last_sync_attempt : Option Int := none
  sync_error : Option String := none
  start_date : Option Int := none
  end_date : Option Int := none
  allowed_hours : Option (List Int) := none
  allowed_days : Option (List Int) := none
  use_count : Int := 0
  max_uses : Int := -1
  notify_on_use : Bool := false
  created_at : Option Int := none
  last_used : Option Int := none
  expires_at : Option Int := none
deriving DecidableEq, Repr

/-- `if self.start_date and now < self.start_date` in `is_valid_now`. -/
def beforeStart (slot : CodeSlot) (now : DateTime) : Bool :=
  match slot.start_date with
  | some d => decide (now.stamp < d)
  | none => false

/-- `if self.end_date and now > self.end_date` in `is_valid_now`. -/
def afterEnd (slot : CodeSlot) (now : DateTime) : Bool :=
  match slot.end_date with
  | some d => decide (d < now.stamp)
  | none => false

/-- `if self.allowed_hours and now.hour not in self.allowed_hours`. -/
def outsideHours (slot : CodeSlot) (now : DateTime) : Bool :=
  match slot.allowed_hours with
  | some l => !l.isEmpty && !(decide (now.hour ∈ l))
  | none => false

/-- `if self.allowed_days and now.weekday() not in self.allowed_days`. -/
def outsideDays (slot : CodeSlot) (now : DateTime) : Bool :=
  match slot.allowed_days with
  | some l => !l.isEmpty && !(decide (now.weekday ∈ l))
  | none => false

/-- `if self.max_uses > 0 and self.use_count >= self.max_uses`. -/
def overUsed (slot : CodeSlot) : Bool :=
  decide (0 < slot.max_uses) && decide (slot.max_uses ≤ slot.use_count)

/-- `CodeSlot.is_valid_now`: early-return checks in source order, then
`return self.is_active and bool(self.pin_code)`. -/
def CodeSlot.is_valid_now (slot : CodeSlot) (now : DateTime) : Bool :=
  if beforeStart slot now then false
  else if afterEnd slot now then false
  else if outsideHours slot now then false
  else if outsideDays slot now then false
  else if overUsed slot then false
  else slot.is_active && optStrTruthy slot.pin_code

/-- `CodeSlot.should_disable`: expired past `end_date`, or max uses reached. -/
def CodeSlot.should_disable (slot : CodeSlot) (now : DateTime) : Bool :=
  if afterEnd slot now then true
  else if overUsed slot then true
  else false

/-- `models/lock.py::SlotStatus` — status record shown by the UI. -/
structure SlotStatus where
  name : String
  label : String
  color : String
  description : String
deriving DecidableEq, Repr

/-- `SLOT_STATUSES["EMPTY"]`. -/
def STATUS_EMPTY : SlotStatus :=
  ⟨"EMPTY", "Click to configure", "#9e9e9e", "No PIN code configured"⟩

/-- `SLOT_STATUSES["DISABLING"]`. -/
def STATUS_DISABLING : SlotStatus :=
  ⟨"DISABLING", "Disabling", "#ff9800", "Clearing code from physical lock"⟩

/-- `SLOT_STATUSES["DISABLED"]`. -/
def STATUS_DISABLED : SlotStatus :=
  ⟨"DISABLED", "Disabled", "#9e9e9e", "Slot is disabled and cleared from lock"⟩

/-- `SLOT_STATUSES["OUTSIDE_HOURS"]`. -/
def STATUS_OUTSIDE_HOURS : SlotStatus :=
  ⟨"OUTSIDE_HOURS", "Outside Hours", "#2196f3", "Time restrictions active"⟩

/-- `SLOT_STATUSES["SYNCHRONIZING"]`. -/
def STATUS_SYNCHRONIZING : SlotStatus :=
  ⟨"SYNCHRONIZING", "Synchronizing", "#ff9800", "Syncing with physical lock"⟩

/-- `SLOT_STATUSES["SYNC_ERROR"]`. -/
def STATUS_SYNC_ERROR : SlotStatus :=
  ⟨"SYNC_ERROR", "Sync Error", "#f44336", "Code not found in physical lock"⟩

/-- `SLOT_STATUSES["SYNCHRONIZED"]`. -/
def STATUS_SYNCHRONIZED : SlotStatus :=
  ⟨"SYNCHRONIZED", "Synchronized", "#4caf50", "Code active and synced with lock"⟩

/-- `SLOT_STATUSES["UNKNOWN"]`. -/
def STATUS_UNKNOWN : SlotStatus :=
  ⟨"UNKNOWN", "Unknown Status", "#9e9e9e", "Status unclear"⟩

/-- The `SLOT_STATUSES` dict of `models/lock.py`. -/
def SLOT_STATUSES : List (String × SlotStatus) :=
  [("EMPTY", STATUS_EMPTY), ("DISABLING", STATUS_DISABLING),
   ("DISABLED", STATUS_DISABLED), ("OUTSIDE_HOURS", STATUS_OUTSIDE_HOURS),
   ("SYNCHRONIZING", STATUS_SYNCHRONIZING), ("SYNC_ERROR", STATUS_SYNC_ERROR),
   ("SYNCHRONIZED", STATUS_SYNCHRONIZED), ("UNKNOWN", STATUS_UNKNOWN)]

/-- `CodeSlot.get_status(is_valid_now)`: priority cascade over the slot
state; the trailing branch returns the `UNKNOWN` status. The boolean
argument mirrors the Python parameter `is_valid_now`. -/
def CodeSlot.get_status (slot : CodeSlot) (now : DateTime) (valid_now : Bool) :
    SlotStatus :=
  if !(optStrTruthy slot.pin_code) then STATUS_EMPTY
  else if !slot.is_active && optStrTruthy slot.pin_code && !slot.is_synced then
    STATUS_DISABLING
  else if slot.should_disable now then STATUS_DISABLED
  else if !slot.is_active then STATUS_DISABLED
  else if slot.is_active && !valid_now then STATUS_OUTSIDE_HOURS
  else if slot.is_active && valid_now then
    if decide (0 < slot.sync_attempts) then STATUS_SYNCHRONIZING
    else if !slot.is_synced then STATUS_SYNC_ERROR
    else STATUS_SYNCHRONIZED
  else STATUS_UNKNOWN

/-- `models/lock.py::LockSettings`. -/
structure LockSettings where
  friendly_name : String
  auto_lock_time : Option Int := none
  auto_unlock_time : Option Int := none
  timezone : String := "UTC"
deriving DecidableEq, Repr

/-- `models/lock.py::SmartLockManagerLock`. `code_slots` is the
`slot_number → CodeSlot` dict, as an association list. -/
structure SmartLockManagerLock where
  lock_name : String
  lock_entity_id : String
  slots : Int := 10
  start_from : Int := 1
  settings : LockSettings := ⟨"Smart Lock", none, none, "UTC"⟩
  is_main_lock : Bool := true
  parent_lock_id : Option String := none
  child_lock_ids : List String := []
  code_slots : List (Int × CodeSlot) := []
  is_connected : Bool := true
  connection_status : String := "Connected"
  last_updated : Option Int := none
deriving DecidableEq, Repr

/-- Dict lookup on an association list of slots (`d.get(k)` / `k in d`). -/
def lookupSlot (slots : List (Int × CodeSlot)) (n : Int) : Option CodeSlot :=
  match slots with
  | [] => none
  | (k, s) :: rest => if k = n then some s else lookupSlot rest n

/-- Dict value update: replace the entry at key `n` (leaves other keys
alone; a no-op when the key is absent). -/
def updateSlotAt (slots : List (Int × CodeSlot)) (n : Int)
    (f : CodeSlot → CodeSlot) : List (Int × CodeSlot) :=
  slots.map fun p => if p.1 = n then (p.1, f p.2) else p

/-- Dict assignment `d[n] = s`: overwrite an existing key or append a new
entry. -/
def insertSlot (slots : List (Int × CodeSlot)) (n : Int) (s : CodeSlot) :
    List (Int × CodeSlot) :=
  if (lookupSlot slots n).isSome then
    slots.map fun p => if p.1 = n then (n, s) else p
  else slots ++ [(n, s)]

/-- `pin_code.isdigit() and 4 <= len(pin_code) <= 8` (digit check modelled
for ASCII digits). -/
def pinFormatOk (pin : String) : Bool :=
  pin.toList.all Char.isDigit && decide (4 ≤ pin.length) && decide (pin.length ≤ 8)

/-- `SmartLockManagerLock.set_code`: returns `False` for an unknown slot or
a nonempty PIN failing the 4-8 digit check (the check is skipped for a
falsy PIN, exactly as `if pin_code:` does); otherwise stores the PIN and
scheduling fields, sets `is_active = bool(pin_code)`, marks the slot
unsynced, stamps `created_at` and resets the usage fields. -/
def SmartLockManagerLock.set_code (lock : SmartLockManagerLock)
    (slot_number : Int) (pin_code : String) (user_name : Option String)
    (start_date end_date : Option Int)
    (allowed_hours allowed_days : Option (List Int))
    (max_uses : Int) (notify_on_use : Bool) (now : Int) :
    Bool × SmartLockManagerLock :=
  if (lookupSlot lock.code_slots slot_number).isNone then (false, lock)
  else if !(pin_code == "") && !(pinFormatOk pin_code) then (false, lock)
  else
    (true,
     { lock with
        code_slots := updateSlotAt lock.code_slots slot_number fun slot =>
          { slot with
              pin_code := some pin_code
              user_name := user_name
              is_active := !(pin_code == "")
              is_synced := false
              created_at := some now
              start_date := start_date
              end_date := end_date
              allowed_hours := allowed_hours
              allowed_days := allowed_days
              max_uses := max_uses
              notify_on_use := notify_on_use
              use_count := 0
              last_used := none } })

/-- One entry of the transient Z-Wave code snapshot
(`{"code": ..., "in_use": ..., "status": ...}`). -/
structure ZWaveCodeEntry where
  code : Option String
  in_use : Bool := true
  status : String := "unknown"
deriving DecidableEq, Repr

/-- `zwave_codes.get(slot_number, {}).get("code")`. -/
def snapCode (zwave_codes : List (Int × ZWaveCodeEntry)) (n : Int) :
    Option String :=
  match zwave_codes with
  | [] => none
  | (k, e) :: rest => if k = n then e.code else snapCode rest n

/-- Key presence in the snapshot. -/
def snapHasKey (zwave_codes : List (Int × ZWaveCodeEntry)) (n : Int) : Bool :=
  match zwave_codes with
  | [] => false
  | (k, _) :: rest => if k = n then true else snapHasKey rest n

/-- `slot.is_active and slot.pin_code and slot.is_valid_now()` — the
"Smart Lock Manager wants this slot active" test of
`get_slots_needing_sync`. -/
def desiredActive (slot : CodeSlot) (now : DateTime) : Bool :=
  slot.is_active && optStrTruthy slot.pin_code && slot.is_valid_now now

/-- `not zwave_code or zwave_code != slot.pin_code` with `zwave_code` the
snapshot code for the slot. -/
def codeMismatch (slot : CodeSlot) (zcode : Option String) : Bool :=
  !(optStrTruthy zcode) || !(zcode == slot.pin_code)

/-- The error message written by the retry branch. -/
def SYNC_FAIL_MSG : String := "Failed to sync after 10 attempts"

/-- First loop of `get_slots_needing_sync`: walks `code_slots`, producing
the `add`, `remove` and `retry` lists and the slot list with `sync_error`
written on permanently failing slots. -/
def syncScan (now : DateTime) (zc : List (Int × ZWaveCodeEntry)) :
    List (Int × CodeSlot) →
      List Int × List Int × List Int × List (Int × CodeSlot)
  | [] => ([], [], [], [])
  | (n, slot) :: rest =>
    let tail := syncScan now zc rest
    let zcode := snapCode zc n
    if desiredActive slot now then
      if codeMismatch slot zcode then
        if decide (slot.sync_attempts < 10) then
          (n :: tail.1, tail.2.1, tail.2.2.1, (n, slot) :: tail.2.2.2)
        else
          (tail.1, tail.2.1, n :: tail.2.2.1,
           (n, { slot with sync_error := some SYNC_FAIL_MSG }) :: tail.2.2.2)
      else (tail.1, tail.2.1, tail.2.2.1, (n, slot) :: tail.2.2.2)
    else if !slot.is_active || !(optStrTruthy slot.pin_code)
            || !(slot.is_valid_now now) then
      if optStrTruthy zcode then
        (tail.1, n :: tail.2.1, tail.2.2.1, (n, slot) :: tail.2.2.2)
      else (tail.1, tail.2.1, tail.2.2.1, (n, slot) :: tail.2.2.2)
    else (tail.1, tail.2.1, tail.2.2.1, (n, slot) :: tail.2.2.2)

/-- Second loop of `get_slots_needing_sync`: walks the snapshot looking for
rogue codes (slot number unknown) and codes on inactive slots. -/
def rogueScan (code_slots : List (Int × CodeSlot)) :
    List (Int × ZWaveCodeEntry) → List Int
  | [] => []
  | (n, _) :: rest =>
    match lookupSlot code_slots n with
    | none => n :: rogueScan code_slots rest
    | some slot =>
      if !slot.is_active then n :: rogueScan code_slots rest
      else rogueScan code_slots rest

/-- The `{"add": ..., "remove": ..., "retry": ...}` result. -/
structure SyncActions where
  add : List Int
  remove : List Int
  retry : List Int
deriving DecidableEq, Repr

/-- `SmartLockManagerLock.get_slots_needing_sync(zwave_codes)`: both loops;
returns the action lists and the lock with `sync_error` updates. -/
def SmartLockManagerLock.get_slots_needing_sync (lock : SmartLockManagerLock)
    (zc : List (Int × ZWaveCodeEntry)) (now : DateTime) :
    SyncActions × SmartLockManagerLock :=
  let scan := syncScan now zc lock.code_slots
  ({ add := scan.1, remove := scan.2.1 ++ rogueScan scan.2.2.2 zc,
     retry := scan.2.2.1 },
   { lock with code_slots := scan.2.2.2 })

/-- Per-slot body of `update_sync_status`. -/
def updateSyncSlot (zc : List (Int × ZWaveCodeEntry)) (n : Int)
    (slot : CodeSlot) : CodeSlot :=
  let zcode := snapCode zc n
  if slot.is_active && optStrTruthy slot.pin_code then
    if zcode == slot.pin_code then
      { slot with is_synced := true, sync_attempts := 0, sync_error := none }
    else { slot with is_synced := false }
  else if !slot.is_active || !(optStrTruthy slot.pin_code) then
    if !(optStrTruthy zcode) then
      { slot with is_synced := true, sync_attempts := 0, sync_error := none }
    else { slot with is_synced := false }
  else { slot with is_synced := false }

/-- `SmartLockManagerLock.update_sync_status(zwave_codes)`. -/
def SmartLockManagerLock.update_sync_status (lock : SmartLockManagerLock)
    (zc : List (Int × ZWaveCodeEntry)) : SmartLockManagerLock :=
  { lock with
      code_slots := lock.code_slots.map fun p => (p.1, updateSyncSlot zc p.1 p.2) }

/-- A fresh empty slot, `CodeSlot(slot_number=n)`. -/
def emptySlot (n : Int) : CodeSlot := { slot_number := n }

/-- `SmartLockManagerLock.resize_slots(new_slot_count)`: rejects counts
below 1; shrinking deletes every slot numbered at or above
`start_from + new_slot_count`; growing assigns fresh empty slots for
`range(start_from + old_count, start_from + new_slot_count)`. -/
def SmartLockManagerLock.resize_slots (lock : SmartLockManagerLock)
    (new_slot_count : Int) : Bool × SmartLockManagerLock :=
  if decide (new_slot_count < 1) then (false, lock)
  else
    let old_count := lock.slots
    if decide (new_slot_count < old_count) then
      (true,
       { lock with
          slots := new_slot_count
          code_slots := lock.code_slots.filter fun p =>
            decide (p.1 < lock.start_from + new_slot_count) })
    else if decide (old_count < new_slot_count) then
      (true,
       { lock with
          slots := new_slot_count
          code_slots :=
            ((List.range (new_slot_count - old_count).toNat).map
              fun i : Nat => lock.start_from + old_count + (i : Int)).foldl
              (fun acc n => insertSlot acc n (emptySlot n))
              lock.code_slots })
    else (true, { lock with slots := new_slot_count })

/-- `services/slot_services.py::SlotServices.resize_slots`: validates
`1 <= slot_count <= 50` before delegating to the model's `resize_slots`;
an out-of-range count leaves the lock untouched. -/
def SlotServices.resize_slots (lock : SmartLockManagerLock)
    (slot_count : Int) : SmartLockManagerLock :=
  if decide (slot_count < 1) || decide (50 < slot_count) then lock
  else (lock.resize_slots slot_count).2

/-- Field copy performed by `sync_to_child_locks` for one matching slot
(usage counters deliberately not copied). -/
def copySlotFrom (main_slot child_slot : CodeSlot) : CodeSlot :=
  { child_slot with
      pin_code := main_slot.pin_code
      user_name := main_slot.user_name
      is_active := main_slot.is_active
      start_date := main_slot.start_date
      end_date := main_slot.end_date
      allowed_hours := main_slot.allowed_hours
      allowed_days := main_slot.allowed_days
      max_uses := main_slot.max_uses
      notify_on_use := main_slot.notify_on_use }

/-- The inner loop of `sync_to_child_locks`: every child entry whose slot
number is also a key of the main lock's dict is overwritten from the main
slot (dict keys are unique, so updating per child entry reproduces the
source's iteration over the main lock's slots). -/
def syncChildSlots (main_slots child_slots : List (Int × CodeSlot)) :
    List (Int × CodeSlot) :=
  child_slots.map fun p =>
    match lookupSlot main_slots p.1 with
    | some ms => (p.1, copySlotFrom ms p.2)
    | none => p

/-- `SmartLockManagerLock.sync_to_child_locks(child_locks)`: a no-op unless
`is_main_lock`; children whose `parent_lock_id` matches this lock's entity
id get their matching slots overwritten. -/
def SmartLockManagerLock.sync_to_child_locks (lock : SmartLockManagerLock)
    (child_locks : List SmartLockManagerLock) : List SmartLockManagerLock :=
  if !lock.is_main_lock then child_locks
  else
    child_locks.map fun child =>
      if child.parent_lock_id == some lock.lock_entity_id then
        { child with
            code_slots := syncChildSlots lock.code_slots child.code_slots }
      else child

/-- One slot's record in the dict written by `__init__.py::_save_lock_data`.
Datetimes travel through `isoformat()`/`fromisoformat()`, an exact inverse
pair, so they are kept as the timestamp; the JSON key `str(slot_num)` is
parsed back with `int(...)`, likewise an exact inverse on decimal
integers, so the model keeps the integer key. -/
structure StoredSlot where
  slot_number : Int
  pin_code : Option String
  user_name : Option String
  is_active : Bool
  start_date : Option Int
  end_date : Option Int
  allowed_hours : Option (List Int)
  allowed_days : Option (List Int)
  max_uses : Int
  use_count : Int
  notify_on_use : Bool
deriving DecidableEq, Repr

/-- The per-slot serialization of `_save_lock_data`. -/
def saveSlot (slot : CodeSlot) : StoredSlot :=
  { slot_number := slot.slot_number
    pin_code := slot.pin_code
    user_name := slot.user_name
    is_active := slot.is_active
    start_date := slot.start_date
    end_date := slot.end_date
    allowed_hours := slot.allowed_hours
    allowed_days := slot.allowed_days
    max_uses := slot.max_uses
    use_count := slot.use_count
    notify_on_use := slot.notify_on_use }

/-- `_save_lock_data`: the `code_slots` dict written to storage. -/
def saveLockData (lock : SmartLockManagerLock) : List (Int × StoredSlot) :=
  lock.code_slots.map fun p => (p.1, saveSlot p.2)

/-- The `CodeSlot(...)` reconstruction in `async_setup_entry`
(`slot_data.get(...)` with the dataclass defaults for everything not
persisted, e.g. `is_synced` starts out `False` again). -/
def restoreSlot (_slot_num : Int) (d : StoredSlot) : CodeSlot :=
  { slot_number := d.slot_number
    pin_code := d.pin_code
    user_name := d.user_name
    is_active := d.is_active
    start_date := d.start_date
    end_date := d.end_date
    allowed_hours := d.allowed_hours
    allowed_days := d.allowed_days
    max_uses := d.max_uses
    use_count := d.use_count
    notify_on_use := d.notify_on_use }

/-- The restore loop of `async_setup_entry`: rebuilds `lock.code_slots`
from the stored dict. -/
def restoreCodeSlots (stored : List (Int × StoredSlot)) :
    List (Int × CodeSlot) :=
  stored.map fun p => (p.1, restoreSlot p.1 p.2)

/-- First loop body of `check_and_update_slot_validity`: inactive slots
are skipped; slots that `should_disable` are auto-disabled and reported;
the `elif` compares `was_valid` with a recomputation of `is_valid_now()`
(identical at one instant). -/
def validityScan (now : DateTime) :
    List (Int × CodeSlot) → List Int × List (Int × CodeSlot)
  | [] => ([], [])
  | (n, slot) :: rest =>
    let tail := validityScan now rest
    if !slot.is_active then (tail.1, (n, slot) :: tail.2)
    else if slot.should_disable now then
      (n :: tail.1, (n, { slot with is_active := false }) :: tail.2)
    else if slot.is_valid_now now != slot.is_valid_now now then
      (n :: tail.1, (n, slot) :: tail.2)
    else (tail.1, (n, slot) :: tail.2)

/-- `SmartLockManagerLock.check_and_update_slot_validity`. -/
def SmartLockManagerLock.check_and_update_slot_validity
    (lock : SmartLockManagerLock) (now : DateTime) :
    List Int × SmartLockManagerLock :=
  let scan := validityScan now lock.code_slots
  (scan.1, { lock with code_slots := scan.2 })

/-- Raw reply of `get_usercode_from_node` for one physical slot. -/
structure RawUsercode where
  usercode : Option String
  in_use : Bool
  userIdStatus : String := "unknown"
deriving DecidableEq, Repr

/-- The physical lock as read through Z-Wave: `none` models a read that
throws (slot empty or error) and is skipped. -/
def PhysicalLock := Int → Option RawUsercode

/-- The snapshot loop of `_async_update_data`: scans only slots 1..10 and
records an entry when `code_data`, its `usercode` and its `in_use` are all
truthy. -/
def buildSnapshot (physical : PhysicalLock) : List (Int × ZWaveCodeEntry) :=
  ((List.range 10).map fun i : Nat => (i : Int) + 1).filterMap fun slot =>
    match physical slot with
    | none => none
    | some cd =>
      if optStrTruthy cd.usercode && cd.in_use then
        some (slot,
          { code := cd.usercode, in_use := cd.in_use, status := cd.userIdStatus })
      else none

/-- The coordinator state the claims mention: `__init__` stores the lock
name and passes `update_interval=timedelta(seconds=30)` to the host. -/
structure Coordinator where
  lock_name : String
  update_interval : Int
deriving DecidableEq, Repr

/-- `SmartLockManagerDataUpdateCoordinator.__init__`. -/
def coordinatorInit (lock_name : String) : Coordinator :=
  { lock_name := lock_name, update_interval := 30 }

/-- The interval values the `update_global_settings` schema accepts
(`vol.In([30, 60, 120, 300])`). -/
def ALLOWED_COORDINATOR_INTERVALS : List Int := [30, 60, 120, 300]

/-- `services/system_services.py::SystemServices.update_global_settings`,
restricted to its effect on one coordinator: when `coordinator_interval`
is supplied, the coordinator's `update_interval` becomes that value. -/
def SystemServices.update_global_settings (c : Coordinator)
    (coordinator_interval : Option Int) : Coordinator :=
  match coordinator_interval with
  | some v => { c with update_interval := v }
  | none => c

/-- The lock-state part of one `_async_update_data` pass: validity check,
snapshot read, sync-status update and action computation, in source
order within the single call. -/
def coordinatorTick (lock : SmartLockManagerLock) (physical : PhysicalLock)
    (now : DateTime) : SmartLockManagerLock × SyncActions :=
  let lock1 := (lock.check_and_update_slot_validity now).2
  let snapshot := buildSnapshot physical
  let lock2 := lock1.update_sync_status snapshot
  let acted := lock2.get_slots_needing_sync snapshot now
  (acted.2, acted.1)

/-! Helper lemmas. -/

lemma is_valid_now_eq (slot : CodeSlot) (now : DateTime) :
    slot.is_valid_now now =
      (!(beforeStart slot now) && !(afterEnd slot now) &&
       !(outsideHours slot now) && !(outsideDays slot now) &&
       !(overUsed slot) && slot.is_active && optStrTruthy slot.pin_code) := by
  unfold CodeSlot.is_valid_now
  split_ifs with h1 h2 h3 h4 h5 <;> simp_all

lemma beforeStart_false_iff (slot : CodeSlot) (now : DateTime) :
    beforeStart slot now = false ↔
      ∀ d, slot.start_date = some d → d ≤ now.stamp := by
  unfold beforeStart
  rcases slot.start_date with _ | d <;> simp

lemma afterEnd_false_iff (slot : CodeSlot) (now : DateTime) :
    afterEnd slot now = false ↔
      ∀ d, slot.end_date = some d → now.stamp ≤ d := by
  unfold afterEnd
  rcases slot.end_date with _ | d <;> simp

lemma outsideHours_false_iff (slot : CodeSlot) (now : DateTime) :
    outsideHours slot now = false ↔
      ∀ l, slot.allowed_hours = some l → l ≠ [] → now.hour ∈ l := by
  unfold outsideHours
  rcases slot.allowed_hours with _ | l
  · simp
  · simp only [Option.some.injEq, forall_eq']
    by_cases he : l = []
    · subst he; simp
    · by_cases hm : now.hour ∈ l <;> simp [he, hm, List.isEmpty_iff]

lemma outsideDays_false_iff (slot : CodeSlot) (now : DateTime) :
    outsideDays slot now = false ↔
      ∀ l, slot.allowed_days = some l → l ≠ [] → now.weekday ∈ l := by
  unfold outsideDays
  rcases slot.allowed_days with _ | l
  · simp
  · simp only [Option.some.injEq, forall_eq']
    by_cases he : l = []
    · subst he; simp
    · by_cases hm : now.weekday ∈ l <;> simp [he, hm, List.isEmpty_iff]

lemma overUsed_false_iff (slot : CodeSlot) :
    overUsed slot = false ↔
      (0 < slot.max_uses → slot.use_count < slot.max_uses) := by
  unfold overUsed
  simp

lemma lookupSlot_mem {cs : List (Int × CodeSlot)} {n : Int} {s : CodeSlot}
    (h : lookupSlot cs n = some s) : (n, s) ∈ cs := by
  induction cs with
  | nil => simp [lookupSlot] at h
  | cons p rest ih =>
    obtain ⟨k, s0⟩ := p
    by_cases hk : k = n
    · subst hk; simp [lookupSlot] at h; simp [h]
    · simp [lookupSlot, hk] at h
      exact List.mem_cons_of_mem _ (ih h)

lemma lookupSlot_of_mem {cs : List (Int × CodeSlot)} {n : Int} {s : CodeSlot}
    (hnd : (cs.map Prod.fst).Nodup) (h : (n, s) ∈ cs) :
    lookupSlot cs n = some s := by
  induction cs with
  | nil => simp at h
  | cons p rest ih =>
    obtain ⟨k, s0⟩ := p
    simp only [List.map_cons, List.nodup_cons] at hnd
    rcases List.mem_cons.mp h with h1 | h1
    · obtain ⟨rfl, rfl⟩ := Prod.mk.injEq .. ▸ h1
      simp [lookupSlot]
    · have hne : k ≠ n := by
        intro hk
        subst hk
        exact hnd.1 (List.mem_map_of_mem Prod.fst h1)
      simp [lookupSlot, hne]
      exact ih hnd.2 h1

lemma lookupSlot_none_iff {cs : List (Int × CodeSlot)} {n : Int} :
    lookupSlot cs n = none ↔ ∀ s, (n, s) ∉ cs := by
  induction cs with
  | nil => simp [lookupSlot]
  | cons p rest ih =>
    obtain ⟨k, s0⟩ := p
    by_cases hk : k = n
    · subst hk
      simp only [lookupSlot, if_pos rfl]
      constructor
      · intro h; simp at h
      · intro h
        exact ((h s0) (List.mem_cons_self _ _)).elim
    · simp [lookupSlot, hk, ih, Ne.symm hk]

lemma lookupSlot_map (cs : List (Int × CodeSlot)) (f : Int → CodeSlot → CodeSlot)
    (n : Int) :
    lookupSlot (cs.map fun p => (p.1, f p.1 p.2)) n =
      (lookupSlot cs n).map (f n) := by
  induction cs with
  | nil => simp [lookupSlot]
  | cons p rest ih =>
    obtain ⟨k, s0⟩ := p
    by_cases hk : k = n
    · subst hk; simp [lookupSlot]
    · simp [lookupSlot, hk, ih]

lemma snapHasKey_iff {zc : List (Int × ZWaveCodeEntry)} {n : Int} :
    snapHasKey zc n = true ↔ ∃ e, (n, e) ∈ zc := by
  induction zc with
  | nil => simp [snapHasKey]
  | cons p rest ih =>
    obtain ⟨k, e0⟩ := p
    by_cases hk : k = n
    · subst hk; simp [snapHasKey]
    · simp [snapHasKey, hk, ih, Ne.symm hk]

lemma snapCode_truthy_of_hasKey {zc : List (Int × ZWaveCodeEntry)} {n : Int}
    (htru : ∀ p ∈ zc, optStrTruthy p.2.code = true)
    (h : snapHasKey zc n = true) : optStrTruthy (snapCode zc n) = true := by
  induction zc with
  | nil => simp [snapHasKey] at h
  | cons p rest ih =>
    obtain ⟨k, e0⟩ := p
    by_cases hk : k = n
    · subst hk
      simpa [snapCode] using htru (k, e0) (by simp)
    · simp [snapHasKey, hk] at h
      simp [snapCode, hk]
      exact ih (fun q hq => htru q (List.mem_cons_of_mem _ hq)) h

lemma hasKey_of_snapCode_truthy {zc : List (Int × ZWaveCodeEntry)} {n : Int}
    (h : optStrTruthy (snapCode zc n) = true) : snapHasKey zc n = true := by
  induction zc with
  | nil => simp [snapCode, optStrTruthy] at h
  | cons p rest ih =>
    obtain ⟨k, e0⟩ := p
    by_cases hk : k = n
    · subst hk; simp [snapHasKey]
    · simp [snapCode, hk] at h
      simp [snapHasKey, hk]
      exact ih h

lemma not_desiredActive_elif {slot : CodeSlot} {now : DateTime}
    (h : desiredActive slot now = false) :
    (!slot.is_active || !(optStrTruthy slot.pin_code)
      || !(slot.is_valid_now now)) = true := by
  unfold desiredActive at h
  cases ha : slot.is_active <;> cases hp : optStrTruthy slot.pin_code <;>
    cases hv : slot.is_valid_now now <;> simp_all

/-- Marker for the retry branch of the first loop. -/
def retryHit (zc : List (Int × ZWaveCodeEntry)) (now : DateTime) (n : Int)
    (slot : CodeSlot) : Bool :=
  desiredActive slot now && codeMismatch slot (snapCode zc n)
    && !(decide (slot.sync_attempts < 10))

lemma syncScan_eq (now : DateTime) (zc : List (Int × ZWaveCodeEntry))
    (cs : List (Int × CodeSlot)) :
    syncScan now zc cs =
      (cs.filterMap (fun p =>
        if desiredActive p.2 now && codeMismatch p.2 (snapCode zc p.1)
            && decide (p.2.sync_attempts < 10) then some p.1 else none),
       cs.filterMap (fun p =>
        if !(desiredActive p.2 now) && optStrTruthy (snapCode zc p.1) then
          some p.1 else none),
       cs.filterMap (fun p =>
        if retryHit zc now p.1 p.2 then some p.1 else none),
       cs.map (fun p =>
        (p.1, if retryHit zc now p.1 p.2 then
                { p.2 with sync_error := some SYNC_FAIL_MSG } else p.2))) := by
  induction cs with
  | nil => simp [syncScan]
  | cons p rest ih =>
    obtain ⟨k, slot⟩ := p
    by_cases hd : desiredActive slot now = true
    · by_cases hm : codeMismatch slot (snapCode zc k) = true
      · by_cases ha : slot.sync_attempts < 10
        · have ha10 : ¬((10 : Int) ≤ slot.sync_attempts) := by omega
          simp [syncScan, hd, hm, ha, ha10, ih, retryHit]
        · have ha10 : (10 : Int) ≤ slot.sync_attempts := by omega
          simp [syncScan, hd, hm, ha, ha10, ih, retryHit]
      · simp [syncScan, hd, hm, ih, retryHit]
    · have hdf : desiredActive slot now = false := by
        revert hd; cases desiredActive slot now <;> simp
      have helif := not_desiredActive_elif hdf
      by_cases ht : optStrTruthy (snapCode zc k) = true
      · simp [syncScan, hdf, helif, ht, ih, retryHit]
      · simp [syncScan, hdf, helif, ht, ih, retryHit]

lemma rogueScan_mem (cs : List (Int × CodeSlot))
    (zc : List (Int × ZWaveCodeEntry)) (n : Int) :
    n ∈ rogueScan cs zc ↔
      (∃ e, (n, e) ∈ zc) ∧
        (lookupSlot cs n = none ∨
          ∃ s, lookupSlot cs n = some s ∧ s.is_active = false) := by
  induction zc with
  | nil => simp [rogueScan]
  | cons p rest ih =>
    obtain ⟨k, e0⟩ := p
    by_cases hk : k = n
    · subst hk
      rcases hl : lookupSlot cs k with _ | s
      · simp [rogueScan, hl, ih]
      · by_cases hact : s.is_active = true
        · simp [rogueScan, hl, hact, ih]
        · simp only [Bool.not_eq_true] at hact
          simp [rogueScan, hl, hact, ih]
    · rcases hl : lookupSlot cs k with _ | s
      · simp [rogueScan, hl, ih, Ne.symm hk]
      · by_cases hact : s.is_active = true
        · simp [rogueScan, hl, hact, ih, Ne.symm hk]
        · simp only [Bool.not_eq_true] at hact
          simp [rogueScan, hl, hact, ih, Ne.symm hk]

lemma mem_filterMap_if {α : Type} (cs : List (Int × α)) (c : Int → α → Bool)
    (n : Int) :
    (n ∈ cs.filterMap fun p => if c p.1 p.2 then some p.1 else none) ↔
      ∃ s, (n, s) ∈ cs ∧ c n s = true := by
  simp only [List.mem_filterMap]
  constructor
  · rintro ⟨⟨k, s⟩, hmem, hf⟩
    by_cases hc : c k s = true
    · simp only [hc, if_true, Option.some.injEq] at hf
      subst hf
      exact ⟨s, hmem, hc⟩
    · simp [hc] at hf
  · rintro ⟨s, hmem, hc⟩
    exact ⟨(n, s), hmem, by simp [hc]⟩

lemma mem_iff_lookupSlot {cs : List (Int × CodeSlot)}
    (hnd : (cs.map Prod.fst).Nodup) {n : Int} {s : CodeSlot} :
    (n, s) ∈ cs ↔ lookupSlot cs n = some s :=
  ⟨lookupSlot_of_mem hnd, lookupSlot_mem⟩

lemma codeMismatch_iff {slot : CodeSlot} {z : Option String}
    (hpin : optStrTruthy slot.pin_code = true) :
    codeMismatch slot z = true ↔ (z = none ∨ z ≠ slot.pin_code) := by
  unfold codeMismatch
  rcases hp : slot.pin_code with _ | p
  · rw [hp] at hpin; simp [optStrTruthy] at hpin
  · rw [hp] at hpin
    have hpne : p ≠ "" := by simpa [optStrTruthy] using hpin
    rcases z with _ | c
    · simp [optStrTruthy]
    · by_cases hc : c = ""
      · subst hc
        simp [optStrTruthy]
        exact fun h => (hpne h.symm).elim
      · simp [optStrTruthy, hc]

lemma desiredActive_false_iff {slot : CodeSlot} {now : DateTime} :
    desiredActive slot now = false ↔
      (slot.is_active = false ∨ optStrTruthy slot.pin_code = false ∨
        slot.is_valid_now now = false) := by
  unfold desiredActive
  cases ha : slot.is_active <;> cases hp : optStrTruthy slot.pin_code <;>
    cases hv : slot.is_valid_now now <;> simp_all

lemma retryUpd_is_active (zc : List (Int × ZWaveCodeEntry)) (now : DateTime)
    (n : Int) (s : CodeSlot) :
    (if retryHit zc now n s then
      { s with sync_error := some SYNC_FAIL_MSG } else s).is_active =
      s.is_active := by
  split_ifs <;> rfl

lemma mem_add_list (zc : List (Int × ZWaveCodeEntry)) (now : DateTime)
    (cs : List (Int × CodeSlot)) (n : Int) :
    (n ∈ cs.filterMap fun p =>
      if desiredActive p.2 now && codeMismatch p.2 (snapCode zc p.1)
          && decide (p.2.sync_attempts < 10) then some p.1 else none) ↔
      ∃ s, (n, s) ∈ cs ∧
        (desiredActive s now && codeMismatch s (snapCode zc n)
          && decide (s.sync_attempts < 10)) = true :=
  mem_filterMap_if cs
    (fun k s => desiredActive s now && codeMismatch s (snapCode zc k)
      && decide (s.sync_attempts < 10)) n

lemma mem_retry_list (zc : List (Int × ZWaveCodeEntry)) (now : DateTime)
    (cs : List (Int × CodeSlot)) (n : Int) :
    (n ∈ cs.filterMap fun p =>
      if retryHit zc now p.1 p.2 then some p.1 else none) ↔
      ∃ s, (n, s) ∈ cs ∧ retryHit zc now n s = true :=
  mem_filterMap_if cs (fun k s => retryHit zc now k s) n

lemma mem_removeFirst_list (zc : List (Int × ZWaveCodeEntry)) (now : DateTime)
    (cs : List (Int × CodeSlot)) (n : Int) :
    (n ∈ cs.filterMap fun p =>
      if !(desiredActive p.2 now) && optStrTruthy (snapCode zc p.1) then
        some p.1 else none) ↔
      ∃ s, (n, s) ∈ cs ∧
        (!(desiredActive s now) && optStrTruthy (snapCode zc n)) = true :=
  mem_filterMap_if cs
    (fun k s => !(desiredActive s now) && optStrTruthy (snapCode zc k)) n

lemma lookupSlot_retryMap (zc : List (Int × ZWaveCodeEntry)) (now : DateTime)
    (cs : List (Int × CodeSlot)) (n : Int) :
    lookupSlot (cs.map fun p =>
      (p.1, if retryHit zc now p.1 p.2 then
        { p.2 with sync_error := some SYNC_FAIL_MSG } else p.2)) n =
      (lookupSlot cs n).map (fun s =>
        if retryHit zc now n s then
          { s with sync_error := some SYNC_FAIL_MSG } else s) :=
  lookupSlot_map cs
    (fun k s => if retryHit zc now k s then
      { s with sync_error := some SYNC_FAIL_MSG } else s) n

/-- The add/remove/retry action computation of `get_slots_needing_sync`,
as the claim describes it, for a lock whose slot dict has distinct keys
and a per-tick snapshot all of whose entries hold a truthy code. -/
def SyncActionsSpec (lock : SmartLockManagerLock)
    (zc : List (Int × ZWaveCodeEntry)) (now : DateTime) : Prop :=
  (∀ n, n ∈ (lock.get_slots_needing_sync zc now).1.add ↔
    ∃ slot, lookupSlot lock.code_slots n = some slot ∧
      slot.is_active = true ∧ optStrTruthy slot.pin_code = true ∧
      slot.is_valid_now now = true ∧
      (snapCode zc n = none ∨ snapCode zc n ≠ slot.pin_code) ∧
      slot.sync_attempts < 10) ∧
  (∀ n, n ∈ (lock.get_slots_needing_sync zc now).1.retry ↔
    ∃ slot, lookupSlot lock.code_slots n = some slot ∧
      slot.is_active = true ∧ optStrTruthy slot.pin_code = true ∧
      slot.is_valid_now now = true ∧
      (snapCode zc n = none ∨ snapCode zc n ≠ slot.pin_code) ∧
      10 ≤ slot.sync_attempts) ∧
  (∀ n, n ∈ (lock.get_slots_needing_sync zc now).1.retry →
    ∃ slot2,
      lookupSlot (lock.get_slots_needing_sync zc now).2.code_slots n =
        some slot2 ∧ slot2.sync_error = some SYNC_FAIL_MSG) ∧
  (∀ n, n ∈ (lock.get_slots_needing_sync zc now).1.remove ↔
    ((∃ slot, lookupSlot lock.code_slots n = some slot ∧
      (slot.is_active = false ∨ optStrTruthy slot.pin_code = false ∨
        slot.is_valid_now now = false) ∧ snapHasKey zc n = true) ∨
     (snapHasKey zc n = true ∧ lookupSlot lock.code_slots n = none)))

lemma gsns_add_eq (lock : SmartLockManagerLock)
    (zc : List (Int × ZWaveCodeEntry)) (now : DateTime) :
    (lock.get_slots_needing_sync zc now).1.add =
      lock.code_slots.filterMap (fun p =>
        if desiredActive p.2 now && codeMismatch p.2 (snapCode zc p.1)
            && decide (p.2.sync_attempts < 10) then some p.1 else none) := by
  simp only [SmartLockManagerLock.get_slots_needing_sync, syncScan_eq]

lemma gsns_retry_eq (lock : SmartLockManagerLock)
    (zc : List (Int × ZWaveCodeEntry)) (now : DateTime) :
    (lock.get_slots_needing_sync zc now).1.retry =
      lock.code_slots.filterMap (fun p =>
        if retryHit zc now p.1 p.2 then some p.1 else none) := by
  simp only [SmartLockManagerLock.get_slots_needing_sync, syncScan_eq]

lemma gsns_remove_eq (lock : SmartLockManagerLock)
    (zc : List (Int × ZWaveCodeEntry)) (now : DateTime) :
    (lock.get_slots_needing_sync zc now).1.remove =
      lock.code_slots.filterMap (fun p =>
        if !(desiredActive p.2 now) && optStrTruthy (snapCode zc p.1) then
          some p.1 else none) ++
      rogueScan (lock.code_slots.map (fun p =>
        (p.1, if retryHit zc now p.1 p.2 then
          { p.2 with sync_error := some SYNC_FAIL_MSG } else p.2))) zc := by
  simp only [SmartLockManagerLock.get_slots_needing_sync, syncScan_eq]

lemma gsns_slots_eq (lock : SmartLockManagerLock)
    (zc : List (Int × ZWaveCodeEntry)) (now : DateTime) :
    (lock.get_slots_needing_sync zc now).2.code_slots =
      lock.code_slots.map (fun p =>
        (p.1, if retryHit zc now p.1 p.2 then
          { p.2 with sync_error := some SYNC_FAIL_MSG } else p.2)) := by
  simp only [SmartLockManagerLock.get_slots_needing_sync, syncScan_eq]

lemma lookupSlot_updateSlotAt (cs : List (Int × CodeSlot)) (n : Int)
    (f : CodeSlot → CodeSlot) (k : Int) :
    lookupSlot (updateSlotAt cs n f) k =
      if k = n then (lookupSlot cs k).map f else lookupSlot cs k := by
  induction cs with
  | nil => unfold updateSlotAt; by_cases hk : k = n <;> simp [lookupSlot, hk]
  | cons p rest ih =>
    obtain ⟨k0, s0⟩ := p
    unfold updateSlotAt at ih ⊢
    simp only [List.map_cons]
    by_cases h0n : k0 = n
    · subst h0n
      rw [if_pos rfl]
      by_cases hk : k0 = k
      · subst hk
        simp [lookupSlot, ih]
      · simp [lookupSlot, hk, ih]
    · rw [if_neg h0n]
      by_cases hk : k0 = k
      · subst hk
        have hkn : ¬ k0 = n := h0n
        simp [lookupSlot, hkn, ih]
      · simp [lookupSlot, hk, ih]

/-- `set_code` as the (amended) claim describes it: rejection exactly for
an unknown slot or a nonempty PIN failing the 4-8-digit format check; on
acceptance the stored fields, activation, sync flag and usage reset. -/
def SetCodeSpec (lock : SmartLockManagerLock) (slot_number : Int)
    (pin_code : String) (user_name : Option String)
    (start_date end_date : Option Int)
    (allowed_hours allowed_days : Option (List Int))
    (max_uses : Int) (notify_on_use : Bool) (now : Int) : Prop :=
  (lookupSlot lock.code_slots slot_number = none →
    lock.set_code slot_number pin_code user_name start_date end_date
      allowed_hours allowed_days max_uses notify_on_use now = (false, lock)) ∧
  (pin_code ≠ "" → pinFormatOk pin_code = false →
    lock.set_code slot_number pin_code user_name start_date end_date
      allowed_hours allowed_days max_uses notify_on_use now = (false, lock)) ∧
  (∀ slot, lookupSlot lock.code_slots slot_number = some slot →
    (pin_code = "" ∨ pinFormatOk pin_code = true) →
    (lock.set_code slot_number pin_code user_name start_date end_date
        allowed_hours allowed_days max_uses notify_on_use now).1 = true ∧
    ∃ slot2,
      lookupSlot (lock.set_code slot_number pin_code user_name start_date
          end_date allowed_hours allowed_days max_uses notify_on_use
          now).2.code_slots slot_number = some slot2 ∧
      slot2.pin_code = some pin_code ∧
      slot2.user_name = user_name ∧
      (slot2.is_active = true ↔ pin_code ≠ "") ∧
      slot2.is_synced = false ∧
      slot2.start_date = start_date ∧
      slot2.end_date = end_date ∧
      slot2.allowed_hours = allowed_hours ∧
      slot2.allowed_days = allowed_days ∧
      slot2.max_uses = max_uses ∧
      slot2.notify_on_use = notify_on_use ∧
      slot2.use_count = 0 ∧
      slot2.last_used = none)


lemma lookupSlot_replaceMap (cs : List (Int × CodeSlot)) (n : Int)
    (s : CodeSlot) (k : Int) :
    lookupSlot (cs.map fun p => if p.1 = n then (n, s) else p) k =
      if k = n then (lookupSlot cs n).map (fun _ => s) else lookupSlot cs k := by
  induction cs with
  | nil => by_cases hk : k = n <;> simp [lookupSlot, hk]
  | cons p rest ih =>
    obtain ⟨k0, s0⟩ := p
    simp only [List.map_cons]
    by_cases h0 : k0 = n
    · subst h0
      rw [if_pos rfl]
      by_cases hk : k = k0
      · subst hk; simp [lookupSlot]
      · have hkn : ¬ k0 = k := fun h => hk h.symm
        simp [lookupSlot, hk, hkn, ih]
    · rw [if_neg h0]
      by_cases hk : k0 = k
      · subst hk
        have hkn : ¬ k0 = n := h0
        simp [lookupSlot, hkn, ih]
      · simp [lookupSlot, hk, ih, h0]

lemma lookupSlot_append (cs ds : List (Int × CodeSlot)) (k : Int) :
    lookupSlot (cs ++ ds) k =
      match lookupSlot cs k with
      | some s => some s
      | none => lookupSlot ds k := by
  induction cs with
  | nil => simp [lookupSlot]
  | cons p rest ih =>
    obtain ⟨k0, s0⟩ := p
    by_cases hk : k0 = k <;> simp [lookupSlot, hk, ih]

lemma lookupSlot_insertSlot (cs : List (Int × CodeSlot)) (n : Int)
    (s : CodeSlot) (k : Int) :
    lookupSlot (insertSlot cs n s) k =
      if k = n then some s else lookupSlot cs k := by
  unfold insertSlot
  by_cases hs : (lookupSlot cs n).isSome = true
  · rw [if_pos hs, lookupSlot_replaceMap]
    by_cases hk : k = n
    · obtain ⟨v, hv⟩ := Option.isSome_iff_exists.mp hs
      simp [hk, hv]
    · simp [hk]
  · rw [if_neg hs, lookupSlot_append]
    have hnone : lookupSlot cs n = none := by
      revert hs; cases lookupSlot cs n <;> simp
    by_cases hk : k = n
    · subst hk; simp [hnone, lookupSlot]
    · rcases h : lookupSlot cs k with _ | v
      · have hkn : ¬ (n = k) := fun h => hk h.symm
        simp [lookupSlot, hk, hkn]
      · simp [hk]

lemma lookupSlot_foldl_insert (ns : List Int) (cs : List (Int × CodeSlot))
    (mk : Int → CodeSlot) (k : Int) :
    lookupSlot (ns.foldl (fun acc n => insertSlot acc n (mk n)) cs) k =
      if k ∈ ns then some (mk k) else lookupSlot cs k := by
  induction ns generalizing cs with
  | nil => simp
  | cons m ns ih =>
    simp only [List.foldl_cons]
    rw [ih]
    by_cases hk : k ∈ ns
    · simp [hk]
    · rw [if_neg hk, lookupSlot_insertSlot]
      by_cases hkm : k = m
      · subst hkm; simp
      · simp [hkm, hk]

lemma mem_growRange (start old new k : Int) :
    k ∈ ((List.range (new - old).toNat).map
        fun i : Nat => start + old + (i : Int)) ↔
      (start + old ≤ k ∧ k < start + old + (new - old).toNat) := by
  constructor
  · intro h
    obtain ⟨i, hi, hk⟩ := List.mem_map.mp h
    have hi2 : i < (new - old).toNat := List.mem_range.mp hi
    have hi3 : (i : Int) < ((new - old).toNat : Int) := by exact_mod_cast hi2
    have hi0 : (0 : Int) ≤ (i : Int) := Int.ofNat_nonneg i
    omega
  · rintro ⟨h1, h2⟩
    refine List.mem_map.mpr
      ⟨(k - (start + old)).toNat, List.mem_range.mpr ?_, ?_⟩
    · omega
    · have h3 : ((k - (start + old)).toNat : Int) = k - (start + old) := by
        omega
      omega


/-- The resize_slots service behaviour as the claim states it: counts
outside 1..50 are rejected with no change at all; an accepted shrink keeps
exactly the slots numbered below `start_from + slot_count`; an accepted
grow adds fresh empty slots so the mapping covers `start_from ..
start_from + slot_count - 1` (given it covered the old contiguous range);
an equal count changes nothing. -/
def ResizeSpec (lock : SmartLockManagerLock) (slot_count : Int) : Prop :=
  ((slot_count < 1 ∨ 50 < slot_count) →
    SlotServices.resize_slots lock slot_count = lock) ∧
  (1 ≤ slot_count → slot_count ≤ 50 →
    (SlotServices.resize_slots lock slot_count).slots = slot_count ∧
    (slot_count < lock.slots →
      ∀ n s, ((n, s) ∈ (SlotServices.resize_slots lock slot_count).code_slots
        ↔ (n, s) ∈ lock.code_slots ∧ n < lock.start_from + slot_count)) ∧
    (lock.slots < slot_count → 0 ≤ lock.slots →
      (∀ k, ((lookupSlot lock.code_slots k).isSome = true ↔
        (lock.start_from ≤ k ∧ k < lock.start_from + lock.slots))) →
      (∀ k, ((lookupSlot
          (SlotServices.resize_slots lock slot_count).code_slots k).isSome
            = true ↔
        (lock.start_from ≤ k ∧ k < lock.start_from + slot_count))) ∧
      (∀ k, lock.start_from + lock.slots ≤ k →
        k < lock.start_from + slot_count →
        lookupSlot (SlotServices.resize_slots lock slot_count).code_slots k =
          some (emptySlot k))) ∧
    (lock.slots = slot_count →
      (SlotServices.resize_slots lock slot_count).code_slots =
        lock.code_slots))


/-- The child-propagation behaviour of `sync_to_child_locks` as the claim
states it: a non-main lock changes nothing; children with a different
parent are passed through unchanged; for a matching child every slot
number present in both locks gets the main slot's PIN, user, activation,
schedule, cap and notification fields while keeping its own usage
counters. -/
def SyncChildSpec (lock : SmartLockManagerLock)
    (children : List SmartLockManagerLock) : Prop :=
  (lock.is_main_lock = false →
    lock.sync_to_child_locks children = children) ∧
  (lock.is_main_lock = true →
    ∀ child ∈ children,
      (child.parent_lock_id ≠ some lock.lock_entity_id →
        child ∈ lock.sync_to_child_locks children) ∧
      (child.parent_lock_id = some lock.lock_entity_id →
        ∃ child2, child2 ∈ lock.sync_to_child_locks children ∧
          ∀ n cslot, (n, cslot) ∈ child.code_slots →
            (lookupSlot lock.code_slots n = none →
              (n, cslot) ∈ child2.code_slots) ∧
            (∀ ms, lookupSlot lock.code_slots n = some ms →
              ∃ slot2, (n, slot2) ∈ child2.code_slots ∧
                slot2.pin_code = ms.pin_code ∧
                slot2.user_name = ms.user_name ∧
                slot2.is_active = ms.is_active ∧
                slot2.start_date = ms.start_date ∧
                slot2.end_date = ms.end_date ∧
                slot2.allowed_hours = ms.allowed_hours ∧
                slot2.allowed_days = ms.allowed_days ∧
                slot2.max_uses = ms.max_uses ∧
                slot2.notify_on_use = ms.notify_on_use ∧
                slot2.use_count = cslot.use_count ∧
                slot2.last_used = cslot.last_used)))


lemma snapCode_none_of_not_hasKey {zc : List (Int × ZWaveCodeEntry)} {n : Int}
    (h : snapHasKey zc n = false) : snapCode zc n = none := by
  induction zc with
  | nil => simp [snapCode]
  | cons p rest ih =>
    obtain ⟨k, e⟩ := p
    by_cases hk : k = n
    · subst hk; simp [snapHasKey] at h
    · simp [snapHasKey, hk] at h
      simp [snapCode, hk]
      exact ih h

lemma buildSnapshot_key_bounds (physical : PhysicalLock) (n : Int)
    (e : ZWaveCodeEntry) (h : (n, e) ∈ buildSnapshot physical) :
    1 ≤ n ∧ n ≤ 10 := by
  unfold buildSnapshot at h
  obtain ⟨slot, hslot, hf⟩ := List.mem_filterMap.mp h
  obtain ⟨i, hi, rfl⟩ := List.mem_map.mp hslot
  have hi10 : i < 10 := List.mem_range.mp hi
  have hi10z : (i : Int) < 10 := by exact_mod_cast hi10
  have hi0 : (0 : Int) ≤ (i : Int) := Int.ofNat_nonneg i
  rcases hp : physical ((i : Int) + 1) with _ | cd
  · rw [hp] at hf; simp at hf
  · rw [hp] at hf
    by_cases hc : (optStrTruthy cd.usercode && cd.in_use) = true
    · simp [hc] at hf
      obtain ⟨hn, -⟩ := hf
      omega
    · simp [hc] at hf

/-- The part of claim C10 the code satisfies: snapshots only ever carry
slot numbers 1..10, and an active, valid slot numbered above 10 lands in
`add` while its `sync_attempts` is below 10 and in `retry` (never `add`)
from 10 attempts on, whatever the physical lock holds. -/
def SnapshotBoundSpec (lock : SmartLockManagerLock)
    (physical : PhysicalLock) (now : DateTime) : Prop :=
  (∀ n, snapHasKey (buildSnapshot physical) n = true → 1 ≤ n ∧ n ≤ 10) ∧
  (∀ n slot, lookupSlot lock.code_slots n = some slot → 10 < n →
    desiredActive slot now = true →
    (slot.sync_attempts < 10 →
      n ∈ (lock.get_slots_needing_sync (buildSnapshot physical) now).1.add) ∧
    (10 ≤ slot.sync_attempts →
      n ∈ (lock.get_slots_needing_sync (buildSnapshot physical) now).1.retry ∧
      n ∉ (lock.get_slots_needing_sync (buildSnapshot physical) now).1.add))

/-! Claim theorems. -/

/-- C1: `is_valid_now()` returns True if and only if the slot is active, a
PIN code is present (nonempty), the current time is within the
`start_date`/`end_date` range, the current hour is in `allowed_hours` and
the current weekday is in `allowed_days` whenever those restriction lists
are set (an empty list, like `None`, imposes no restriction), and the
usage cap is not reached (`use_count < max_uses` whenever
`max_uses > 0`). -/
theorem is_valid_now_characterization (slot : CodeSlot) (now : DateTime) :
    slot.is_valid_now now = true ↔
      slot.is_active = true ∧ optStrTruthy slot.pin_code = true ∧
      (∀ d, slot.start_date = some d → d ≤ now.stamp) ∧
      (∀ d, slot.end_date = some d → now.stamp ≤ d) ∧
      (∀ l, slot.allowed_hours = some l → l ≠ [] → now.hour ∈ l) ∧
      (∀ l, slot.allowed_days = some l → l ≠ [] → now.weekday ∈ l) ∧
      (0 < slot.max_uses → slot.use_count < slot.max_uses) := by
  rw [is_valid_now_eq]
  simp only [Bool.and_eq_true, Bool.not_eq_true']
  rw [beforeStart_false_iff, afterEnd_false_iff, outsideHours_false_iff,
    outsideDays_false_iff, overUsed_false_iff]
  tauto

/-- C9: for every slot and every boolean validity argument, `get_status`
returns one of the seven statuses EMPTY, DISABLING, DISABLED,
OUTSIDE_HOURS, SYNCHRONIZING, SYNC_ERROR, SYNCHRONIZED; the UNKNOWN
fallback branch is unreachable. -/
theorem get_status_in_seven (slot : CodeSlot) (now : DateTime) (b : Bool) :
    slot.get_status now b ∈
      [STATUS_EMPTY, STATUS_DISABLING, STATUS_DISABLED, STATUS_OUTSIDE_HOURS,
       STATUS_SYNCHRONIZING, STATUS_SYNC_ERROR, STATUS_SYNCHRONIZED] ∧
    slot.get_status now b ≠ STATUS_UNKNOWN := by
  unfold CodeSlot.get_status
  split_ifs <;> first | decide | simp_all

/-- C3: after `update_sync_status(zwave_codes)`, a slot is synced exactly
when it is active with a PIN whose snapshot code matches, or inactive /
PIN-less with no (truthy) snapshot code; the synced case resets
`sync_attempts` and `sync_error`. -/
theorem update_sync_status_characterization (lock : SmartLockManagerLock)
    (zc : List (Int × ZWaveCodeEntry)) (n : Int) (slot : CodeSlot)
    (hmem : (n, slot) ∈ lock.code_slots) :
    ∃ slot2, (n, slot2) ∈ (lock.update_sync_status zc).code_slots ∧
      ((slot2.is_synced = true ↔
        (slot.is_active = true ∧ optStrTruthy slot.pin_code = true ∧
          snapCode zc n = slot.pin_code) ∨
        ((slot.is_active = false ∨ optStrTruthy slot.pin_code = false) ∧
          optStrTruthy (snapCode zc n) = false)) ∧
      (slot2.is_synced = true →
        slot2.sync_attempts = 0 ∧ slot2.sync_error = none)) := by
  refine ⟨updateSyncSlot zc n slot, ?_, ?_⟩
  · unfold SmartLockManagerLock.update_sync_status
    simp only [List.mem_map]
    exact ⟨(n, slot), hmem, rfl⟩
  · unfold updateSyncSlot
    split_ifs <;> simp_all <;> split_ifs <;> simp_all

/-- C2: on the per-tick snapshot (whose entries always hold a truthy
code), `get_slots_needing_sync` sends an active, PIN-carrying, currently
valid slot whose snapshot code is absent or different to `add` when its
`sync_attempts` is below 10 and to `retry` (setting `sync_error`) at 10 or
more; a slot that is inactive, PIN-less or invalid goes to `remove`
exactly when the snapshot holds a code for its number; and a snapshot
number absent from `code_slots` goes to `remove`. -/
theorem get_slots_needing_sync_characterization
    (lock : SmartLockManagerLock) (zc : List (Int × ZWaveCodeEntry))
    (now : DateTime)
    (hnd : (lock.code_slots.map Prod.fst).Nodup)
    (htru : ∀ p ∈ zc, optStrTruthy p.2.code = true) :
    SyncActionsSpec lock zc now := by
  refine ⟨?_, ?_, ?_, ?_⟩
  · -- membership in add
    intro n
    rw [gsns_add_eq, mem_add_list]
    constructor
    · rintro ⟨slot, hmem, hc⟩
      simp only [Bool.and_eq_true, decide_eq_true_eq] at hc
      obtain ⟨⟨hdes, hmis⟩, hlt⟩ := hc
      simp only [desiredActive, Bool.and_eq_true] at hdes
      obtain ⟨⟨hact, hpin⟩, hval⟩ := hdes
      exact ⟨slot, (mem_iff_lookupSlot hnd).mp hmem, hact, hpin, hval,
        (codeMismatch_iff hpin).mp hmis, hlt⟩
    · rintro ⟨slot, hl, hact, hpin, hval, hmis, hlt⟩
      refine ⟨slot, (mem_iff_lookupSlot hnd).mpr hl, ?_⟩
      simp only [Bool.and_eq_true, decide_eq_true_eq]
      exact ⟨⟨by simp [desiredActive, hact, hpin, hval],
        (codeMismatch_iff hpin).mpr hmis⟩, hlt⟩
  · -- membership in retry
    intro n
    rw [gsns_retry_eq, mem_retry_list]
    constructor
    · rintro ⟨slot, hmem, hc⟩
      simp only [retryHit, Bool.and_eq_true, Bool.not_eq_true',
        decide_eq_false_iff_not] at hc
      obtain ⟨⟨hdes, hmis⟩, hge⟩ := hc
      simp only [desiredActive, Bool.and_eq_true] at hdes
      obtain ⟨⟨hact, hpin⟩, hval⟩ := hdes
      exact ⟨slot, (mem_iff_lookupSlot hnd).mp hmem, hact, hpin, hval,
        (codeMismatch_iff hpin).mp hmis, by omega⟩
    · rintro ⟨slot, hl, hact, hpin, hval, hmis, hge⟩
      refine ⟨slot, (mem_iff_lookupSlot hnd).mpr hl, ?_⟩
      simp only [retryHit, Bool.and_eq_true, Bool.not_eq_true',
        decide_eq_false_iff_not]
      exact ⟨⟨by simp [desiredActive, hact, hpin, hval],
        (codeMismatch_iff hpin).mpr hmis⟩, by omega⟩
  · -- retry slots get sync_error written
    intro n hn
    rw [gsns_retry_eq, mem_retry_list] at hn
    obtain ⟨slot, hmem, hc⟩ := hn
    rw [gsns_slots_eq, lookupSlot_retryMap, (mem_iff_lookupSlot hnd).mp hmem]
    exact ⟨_, rfl, by simp [hc]⟩
  · -- membership in remove
    intro n
    rw [gsns_remove_eq, List.mem_append, mem_removeFirst_list, rogueScan_mem]
    constructor
    · rintro (⟨slot, hmem, hc⟩ | ⟨⟨e, he⟩, hlk⟩)
      · simp only [Bool.and_eq_true, Bool.not_eq_true'] at hc
        obtain ⟨hdes, htr⟩ := hc
        exact Or.inl ⟨slot, (mem_iff_lookupSlot hnd).mp hmem,
          desiredActive_false_iff.mp hdes, hasKey_of_snapCode_truthy htr⟩
      · have hkey : snapHasKey zc n = true := snapHasKey_iff.mpr ⟨e, he⟩
        rw [lookupSlot_retryMap] at hlk
        rcases hlk with hnone | ⟨s2, hsome, hinact⟩
        · rcases hl : lookupSlot lock.code_slots n with _ | s0
          · exact Or.inr ⟨hkey, rfl⟩
          · rw [hl] at hnone; simp at hnone
        · rcases hl : lookupSlot lock.code_slots n with _ | s0
          · rw [hl] at hsome; simp at hsome
          · rw [hl] at hsome
            have hfs : (if retryHit zc now n s0 then
                { s0 with sync_error := some SYNC_FAIL_MSG } else s0) = s2 := by
              simpa using hsome
            have hact0 : s0.is_active = false := by
              rw [← retryUpd_is_active zc now n s0, hfs, hinact]
            exact Or.inl ⟨s0, rfl, Or.inl hact0, hkey⟩
    · rintro (⟨slot, hl, hdisj, hkey⟩ | ⟨hkey, hl⟩)
      · refine Or.inl ⟨slot, (mem_iff_lookupSlot hnd).mpr hl, ?_⟩
        simp only [Bool.and_eq_true, Bool.not_eq_true']
        exact ⟨desiredActive_false_iff.mpr hdisj,
          snapCode_truthy_of_hasKey htru hkey⟩
      · refine Or.inr ⟨snapHasKey_iff.mp hkey, ?_⟩
        rw [lookupSlot_retryMap, hl]
        exact Or.inl rfl

/-- Concrete lock used by the C2 witness: slot 1 wants a code the snapshot
lacks, slot 2 is inactive but still has a snapshot code, slot 9 of the
snapshot is rogue. -/
def wLockC2 : SmartLockManagerLock :=
  { lock_name := "Front Door"
    lock_entity_id := "lock.front_door"
    code_slots :=
      [(1, { slot_number := 1, pin_code := some "1234", is_active := true }),
       (2, { slot_number := 2, pin_code := some "5678", is_active := false })] }

/-- Snapshot used by the C2 witness. -/
def wSnapC2 : List (Int × ZWaveCodeEntry) :=
  [(2, { code := some "5678" }), (9, { code := some "0000" })]

/-- Time instant used by the C2 witness. -/
def wNowC2 : DateTime := { stamp := 0, hour := 12, weekday := 2 }

/-- C2 witness: the characterization applied to a concrete lock and
snapshot. -/
theorem get_slots_needing_sync_characterization_witness :
    SyncActionsSpec wLockC2 wSnapC2 wNowC2 :=
  get_slots_needing_sync_characterization wLockC2 wSnapC2 wNowC2
    (by decide) (by decide)

/-- Concrete lock used by the C3 witness. -/
def wLockC3 : SmartLockManagerLock :=
  { lock_name := "Front Door"
    lock_entity_id := "lock.front_door"
    code_slots :=
      [(1, { slot_number := 1, pin_code := some "1234", is_active := true })] }

/-- C3 witness: the characterization applied to a concrete lock and an
empty snapshot. -/
theorem update_sync_status_characterization_witness :
    (1, { slot_number := 1, pin_code := some "1234", is_active := true }) ∈
      wLockC3.code_slots ∧
    ∃ slot2, (1, slot2) ∈ (wLockC3.update_sync_status []).code_slots ∧
      ((slot2.is_synced = true ↔
        ((true : Bool) = true ∧
          optStrTruthy (some "1234") = true ∧ snapCode [] 1 = some "1234") ∨
        (((true : Bool) = false ∨ optStrTruthy (some "1234") = false) ∧
          optStrTruthy (snapCode [] 1) = false)) ∧
      (slot2.is_synced = true →
        slot2.sync_attempts = 0 ∧ slot2.sync_error = none)) :=
  ⟨by decide,
   update_sync_status_characterization wLockC3 [] 1
     { slot_number := 1, pin_code := some "1234", is_active := true }
     (by decide)⟩


/-- C4 (amended): `set_code` returns False and leaves the lock unchanged
when the slot number is unknown or when the PIN is a nonempty string that
is not a 4-8 digit numeric string; otherwise (valid PIN, or the empty
string, whose validation the code skips) it returns True, stores the PIN,
user name and scheduling fields, sets is_active exactly when the PIN is
nonempty, marks the slot unsynced and resets use_count to 0 and last_used
to None. -/
theorem set_code_spec_holds (lock : SmartLockManagerLock) (slot_number : Int)
    (pin_code : String) (user_name : Option String)
    (start_date end_date : Option Int)
    (allowed_hours allowed_days : Option (List Int))
    (max_uses : Int) (notify_on_use : Bool) (now : Int) :
    SetCodeSpec lock slot_number pin_code user_name start_date end_date
      allowed_hours allowed_days max_uses notify_on_use now := by
  refine ⟨?_, ?_, ?_⟩
  · intro h
    unfold SmartLockManagerLock.set_code
    rw [h]
    simp
  · intro hne hbad
    unfold SmartLockManagerLock.set_code
    rcases hl : lookupSlot lock.code_slots slot_number with _ | s
    · simp [hl]
    · simp [hl, hbad, hne]
  · intro slot hsome hok
    have hcond : (!(pin_code == "") && !(pinFormatOk pin_code)) = false := by
      rcases hok with h | h
      · subst h; simp
      · simp [h]
    unfold SmartLockManagerLock.set_code
    rw [hsome]
    simp only [Option.isNone_some, Bool.false_eq_true, if_false, hcond]
    refine ⟨by trivial, ?_⟩
    rw [lookupSlot_updateSlotAt, if_pos rfl, hsome]
    refine ⟨_, rfl, rfl, rfl, ?_, rfl, rfl, rfl, rfl, rfl, rfl, rfl, rfl, rfl⟩
    by_cases hp : pin_code = "" <;> simp [hp]

/-- Concrete one-slot lock used by the C4 counterexample and witness. -/
def wLockC4 : SmartLockManagerLock :=
  { lock_name := "Front Door"
    lock_entity_id := "lock.front_door"
    code_slots := [(1, emptySlot 1)] }

/-- C4 counterexample: the empty string is not a 4-8 digit numeric string,
yet `set_code(1, "")` returns True (the `if pin_code:` guard skips
validation for a falsy PIN) and deactivates the slot instead of leaving it
unchanged. -/
theorem set_code_empty_pin_counterexample :
    pinFormatOk "" = false ∧
    (wLockC4.set_code 1 "" none none none none none (-1) false 0).1 = true ∧
    (lookupSlot (wLockC4.set_code 1 "" none none none none none (-1) false
        0).2.code_slots 1).map (fun s => s.is_active) = some false := by
  decide

/-- C4 witness: the amended specification applied to a concrete lock and a
valid 4-digit PIN. -/
theorem set_code_spec_holds_witness :
    SetCodeSpec wLockC4 1 "4321" (some "Guest") none none none none (-1)
      false 0 :=
  set_code_spec_holds wLockC4 1 "4321" (some "Guest") none none none none
    (-1) false 0


/-- C5: saving a lock's slot data (`_save_lock_data`) and restoring it at
the next config-entry setup (`async_setup_entry`) is a round trip on the
persisted slot state: each saved slot comes back with the same
`slot_number`, `pin_code`, `user_name`, `is_active`, dates, hour/day
restrictions, `max_uses`, `use_count` and `notify_on_use`. -/
theorem save_restore_roundtrip (lock : SmartLockManagerLock) (n : Int)
    (slot : CodeSlot) (hmem : (n, slot) ∈ lock.code_slots) :
    ∃ slot2, (n, slot2) ∈ restoreCodeSlots (saveLockData lock) ∧
      slot2.slot_number = slot.slot_number ∧
      slot2.pin_code = slot.pin_code ∧
      slot2.user_name = slot.user_name ∧
      slot2.is_active = slot.is_active ∧
      slot2.start_date = slot.start_date ∧
      slot2.end_date = slot.end_date ∧
      slot2.allowed_hours = slot.allowed_hours ∧
      slot2.allowed_days = slot.allowed_days ∧
      slot2.max_uses = slot.max_uses ∧
      slot2.use_count = slot.use_count ∧
      slot2.notify_on_use = slot.notify_on_use := by
  refine ⟨restoreSlot n (saveSlot slot), ?_,
    rfl, rfl, rfl, rfl, rfl, rfl, rfl, rfl, rfl, rfl, rfl⟩
  unfold restoreCodeSlots saveLockData
  rw [List.map_map]
  exact List.mem_map_of_mem _ hmem

/-- Concrete lock used by the C5 witness: one richly populated slot. -/
def wSlotC5 : CodeSlot :=
  { slot_number := 3
    pin_code := some "2468"
    is_active := true
    is_synced := true
    user_name := some "Cleaner"
    sync_attempts := 4
    start_date := some 100
    end_date := some 900
    allowed_hours := some [9, 10, 11]
    allowed_days := some [0, 2, 4]
    use_count := 7
    max_uses := 20
    notify_on_use := true
    last_used := some 450 }

/-- Concrete lock holding `wSlotC5`. -/
def wLockC5 : SmartLockManagerLock :=
  { lock_name := "Back Door"
    lock_entity_id := "lock.back_door"
    code_slots := [(3, wSlotC5)] }

/-- C5 witness: the round trip applied to the concrete lock. -/
theorem save_restore_roundtrip_witness :
    ∃ slot2, (3, slot2) ∈ restoreCodeSlots (saveLockData wLockC5) ∧
      slot2.slot_number = wSlotC5.slot_number ∧
      slot2.pin_code = wSlotC5.pin_code ∧
      slot2.user_name = wSlotC5.user_name ∧
      slot2.is_active = wSlotC5.is_active ∧
      slot2.start_date = wSlotC5.start_date ∧
      slot2.end_date = wSlotC5.end_date ∧
      slot2.allowed_hours = wSlotC5.allowed_hours ∧
      slot2.allowed_days = wSlotC5.allowed_days ∧
      slot2.max_uses = wSlotC5.max_uses ∧
      slot2.use_count = wSlotC5.use_count ∧
      slot2.notify_on_use = wSlotC5.notify_on_use :=
  save_restore_roundtrip wLockC5 3 wSlotC5 (by decide)


/-- C6: the slot count is bounded at 50 — out-of-range `resize_slots`
service calls are rejected and change nothing; an accepted shrink removes
exactly the slots numbered at or above `start_from + slot_count`; an
accepted grow adds empty slots covering the range up to
`start_from + slot_count - 1`. -/
theorem resize_slots_spec_holds (lock : SmartLockManagerLock)
    (slot_count : Int) : ResizeSpec lock slot_count := by
  unfold ResizeSpec
  constructor
  · intro h
    unfold SlotServices.resize_slots
    have hc : (decide (slot_count < 1) || decide (50 < slot_count)) = true := by
      simp only [Bool.or_eq_true, decide_eq_true_eq]
      omega
    rw [if_pos hc]
  · intro h1 h50
    have hc : (decide (slot_count < 1) || decide (50 < slot_count)) = false := by
      simp only [Bool.or_eq_false_iff, decide_eq_false_iff_not]
      omega
    have hn1 : decide (slot_count < 1) = false := by
      simp only [decide_eq_false_iff_not]; omega
    unfold SlotServices.resize_slots SmartLockManagerLock.resize_slots
    rw [if_neg (by simp [hc]), if_neg (by simp [hn1])]
    by_cases hlt : slot_count < lock.slots
    · rw [if_pos (by simp [hlt])]
      refine ⟨rfl, ?_, ?_, ?_⟩
      · intro _ n s
        simp [List.mem_filter]
      · intro hgt
        omega
      · intro heq
        omega
    · rw [if_neg (by simp [hlt])]
      by_cases hgt : lock.slots < slot_count
      · rw [if_pos (by simp [hgt])]
        refine ⟨rfl, ?_, ?_, ?_⟩
        · intro hlt2
          omega
        · intro _ h0 hcov
          constructor
          · intro k
            rw [lookupSlot_foldl_insert]
            by_cases hin : k ∈
                ((List.range (slot_count - lock.slots).toNat).map
                  fun i : Nat => lock.start_from + lock.slots + (i : Int))
            · rw [if_pos hin]
              have hmem := (mem_growRange lock.start_from lock.slots
                slot_count k).mp hin
              simp only [Option.isSome_some, true_iff]
              omega
            · rw [if_neg hin]
              have hnot2 : ¬(lock.start_from + lock.slots ≤ k ∧
                  k < lock.start_from + lock.slots +
                    (slot_count - lock.slots).toNat) :=
                fun h => hin ((mem_growRange lock.start_from lock.slots
                  slot_count k).mpr h)
              rw [hcov k]
              omega
          · intro k hk1 hk2
            rw [lookupSlot_foldl_insert,
              if_pos ((mem_growRange lock.start_from lock.slots
                slot_count k).mpr (by omega))]
        · intro heq
          omega
      · have heq : lock.slots = slot_count := by omega
        rw [if_neg (by simp [hgt])]
        refine ⟨rfl, ?_, ?_, ?_⟩
        · intro hlt2; omega
        · intro hgt2; omega
        · intro _; rfl

/-- Concrete lock used by the C6 witness. -/
def wLockC6 : SmartLockManagerLock :=
  { lock_name := "Side Door"
    lock_entity_id := "lock.side_door"
    slots := 4
    start_from := 1
    code_slots :=
      [(1, emptySlot 1), (2, emptySlot 2), (3, emptySlot 3),
       (4, emptySlot 4)] }

/-- C6 witness: the resize specification applied to a concrete lock and an
in-range count. -/
theorem resize_slots_spec_holds_witness : ResizeSpec wLockC6 6 :=
  resize_slots_spec_holds wLockC6 6


/-- C8: `sync_to_child_locks` propagates the main lock's slot fields to
every listed child whose `parent_lock_id` matches, leaving usage counters
per child, and does nothing when the lock is not a main lock. -/
theorem sync_to_child_locks_spec_holds (lock : SmartLockManagerLock)
    (children : List SmartLockManagerLock) :
    SyncChildSpec lock children := by
  unfold SyncChildSpec
  constructor
  · intro h
    simp [SmartLockManagerLock.sync_to_child_locks, h]
  · intro hmain child hchild
    have hres : lock.sync_to_child_locks children =
        children.map fun child =>
          if child.parent_lock_id == some lock.lock_entity_id then
            { child with
                code_slots := syncChildSlots lock.code_slots child.code_slots }
          else child := by
      simp [SmartLockManagerLock.sync_to_child_locks, hmain]
    constructor
    · intro hne
      rw [hres]
      have hbeq : (child.parent_lock_id == some lock.lock_entity_id) = false :=
        beq_eq_false_iff_ne.mpr hne
      have := List.mem_map_of_mem (fun child =>
        if child.parent_lock_id == some lock.lock_entity_id then
          { child with
              code_slots := syncChildSlots lock.code_slots child.code_slots }
        else child) hchild
      simpa [hbeq] using this
    · intro heq
      have hbeq : (child.parent_lock_id == some lock.lock_entity_id) = true :=
        beq_iff_eq.mpr heq
      refine ⟨{ child with
          code_slots := syncChildSlots lock.code_slots child.code_slots },
        ?_, ?_⟩
      · rw [hres]
        have := List.mem_map_of_mem (fun child =>
          if child.parent_lock_id == some lock.lock_entity_id then
            { child with
                code_slots := syncChildSlots lock.code_slots child.code_slots }
          else child) hchild
        simpa [hbeq] using this
      · intro n cslot hmem
        constructor
        · intro hnone
          unfold syncChildSlots
          have := List.mem_map_of_mem (fun p =>
            match lookupSlot lock.code_slots p.1 with
            | some ms => (p.1, copySlotFrom ms p.2)
            | none => p) hmem
          simpa [hnone] using this
        · intro ms hms
          refine ⟨copySlotFrom ms cslot, ?_, rfl, rfl, rfl, rfl, rfl, rfl,
            rfl, rfl, rfl, rfl, rfl⟩
          unfold syncChildSlots
          have := List.mem_map_of_mem (fun p =>
            match lookupSlot lock.code_slots p.1 with
            | some ms => (p.1, copySlotFrom ms p.2)
            | none => p) hmem
          simpa [hms] using this

/-- Main lock used by the C8 witness. -/
def wMainC8 : SmartLockManagerLock :=
  { lock_name := "Main Door"
    lock_entity_id := "lock.main_door"
    is_main_lock := true
    code_slots :=
      [(1, { slot_number := 1, pin_code := some "1111", is_active := true,
             use_count := 5 })] }

/-- Child lock used by the C8 witness. -/
def wChildC8 : SmartLockManagerLock :=
  { lock_name := "Child Door"
    lock_entity_id := "lock.child_door"
    is_main_lock := false
    parent_lock_id := some "lock.main_door"
    code_slots :=
      [(1, { slot_number := 1, pin_code := some "9999", is_active := false,
             use_count := 2 })] }

/-- C8 witness: the propagation specification applied to a concrete main
lock and child. -/
theorem sync_to_child_locks_spec_holds_witness :
    SyncChildSpec wMainC8 [wChildC8] :=
  sync_to_child_locks_spec_holds wMainC8 [wChildC8]


/-- C7 counterexample: a reachable `update_global_settings` call sets the
coordinator's update interval to 300 seconds, so the reconcile loop does
not always run once per 30-second tick. -/
theorem coordinator_interval_counterexample :
    (SystemServices.update_global_settings (coordinatorInit "Front Door")
      (some 300)).update_interval = 300 ∧
    ¬((SystemServices.update_global_settings (coordinatorInit "Front Door")
      (some 300)).update_interval = 30) := by decide

/-- C7 (amended): the coordinator is created with an update interval of
exactly 30 seconds and one reconciliation pass performs the validity
check, the snapshot read, the sync-status update and the action
computation within a single tick; the interval stays whatever it was
unless `update_global_settings` supplies one of the schema-allowed values
30, 60, 120 or 300, which then becomes the tick length. -/
theorem coordinator_interval_spec (name : String) (c : Coordinator)
    (v : Int) (hv : v ∈ ALLOWED_COORDINATOR_INTERVALS) :
    (coordinatorInit name).update_interval = 30 ∧
    (SystemServices.update_global_settings c (some v)).update_interval = v ∧
    (SystemServices.update_global_settings c (some v)).update_interval ∈
      ALLOWED_COORDINATOR_INTERVALS ∧
    SystemServices.update_global_settings c none = c ∧
    (∀ (lock : SmartLockManagerLock) (physical : PhysicalLock)
        (now : DateTime),
      coordinatorTick lock physical now =
        ((((lock.check_and_update_slot_validity now).2.update_sync_status
            (buildSnapshot physical)).get_slots_needing_sync
            (buildSnapshot physical) now).2,
         (((lock.check_and_update_slot_validity now).2.update_sync_status
            (buildSnapshot physical)).get_slots_needing_sync
            (buildSnapshot physical) now).1)) := by
  refine ⟨rfl, rfl, hv, rfl, fun lock physical now => rfl⟩

/-- C7 witness: the amended interval facts at concrete values. -/
theorem coordinator_interval_spec_witness :
    (coordinatorInit "Garage").update_interval = 30 ∧
    (SystemServices.update_global_settings (coordinatorInit "Garage")
      (some 60)).update_interval = 60 ∧
    (SystemServices.update_global_settings (coordinatorInit "Garage")
      (some 60)).update_interval ∈ ALLOWED_COORDINATOR_INTERVALS ∧
    SystemServices.update_global_settings (coordinatorInit "Garage") none =
      coordinatorInit "Garage" ∧
    (∀ (lock : SmartLockManagerLock) (physical : PhysicalLock)
        (now : DateTime),
      coordinatorTick lock physical now =
        ((((lock.check_and_update_slot_validity now).2.update_sync_status
            (buildSnapshot physical)).get_slots_needing_sync
            (buildSnapshot physical) now).2,
         (((lock.check_and_update_slot_validity now).2.update_sync_status
            (buildSnapshot physical)).get_slots_needing_sync
            (buildSnapshot physical) now).1)) :=
  coordinator_interval_spec "Garage" (coordinatorInit "Garage") 60
    (by decide)

/-- C10 (amended): the per-tick snapshot reads only slots 1..10, so a
snapshot key never exceeds 10; an active, currently valid slot numbered
above 10 is classified into `add` while `sync_attempts` is below 10 and
into `retry` (not `add`) once `sync_attempts` reaches 10, regardless of
what the physical lock holds. -/
theorem snapshot_bound_spec_holds (lock : SmartLockManagerLock)
    (physical : PhysicalLock) (now : DateTime)
    (hnd : (lock.code_slots.map Prod.fst).Nodup) :
    SnapshotBoundSpec lock physical now := by
  have hbound : ∀ n, snapHasKey (buildSnapshot physical) n = true →
      1 ≤ n ∧ n ≤ 10 := by
    intro n hn
    obtain ⟨e, he⟩ := snapHasKey_iff.mp hn
    exact buildSnapshot_key_bounds physical n e he
  refine ⟨hbound, ?_⟩
  intro n slot hl h10 hdes
  have hkey : snapHasKey (buildSnapshot physical) n = false := by
    rcases hsk : snapHasKey (buildSnapshot physical) n with _ | _
    · rfl
    · have := hbound n hsk
      omega
  have hnone : snapCode (buildSnapshot physical) n = none :=
    snapCode_none_of_not_hasKey hkey
  have hmis : codeMismatch slot (snapCode (buildSnapshot physical) n)
      = true := by
    rw [hnone]
    simp [codeMismatch, optStrTruthy]
  constructor
  · intro hlt
    rw [gsns_add_eq, mem_add_list]
    exact ⟨slot, lookupSlot_mem hl, by simp [hdes, hmis, hlt]⟩
  · intro hge
    constructor
    · rw [gsns_retry_eq, mem_retry_list]
      refine ⟨slot, lookupSlot_mem hl, ?_⟩
      simp only [retryHit, hdes, hmis, Bool.true_and, Bool.and_eq_true,
        Bool.not_eq_true', decide_eq_false_iff_not]
      omega
    · rw [gsns_add_eq, mem_add_list]
      rintro ⟨s, hmem, hc⟩
      have hs : s = slot := by
        have h2 := lookupSlot_of_mem hnd hmem
        rw [hl] at h2
        exact (Option.some.inj h2).symm
      subst hs
      simp only [hdes, hmis, Bool.true_and, Bool.and_eq_true,
        decide_eq_true_eq] at hc
      omega

/-- Slot used by the C10 counterexample: active, valid, and already at 10
sync attempts. -/
def wSlotC10 : CodeSlot :=
  { slot_number := 11
    pin_code := some "1234"
    is_active := true
    sync_attempts := 10 }

/-- Concrete lock used by the C10 counterexample. -/
def wLockC10 : SmartLockManagerLock :=
  { lock_name := "Gate"
    lock_entity_id := "lock.gate"
    slots := 12
    code_slots := [(11, wSlotC10)] }

/-- The physical lock read by the C10 counterexample (all reads fail). -/
def wPhysC10 : PhysicalLock := fun _ => none

/-- Time instant used by the C10 counterexample. -/
def wNowC10 : DateTime := { stamp := 0, hour := 12, weekday := 2 }

/-- C10 counterexample: slot 11 is active, has a PIN and is valid now,
yet it is not classified into `add` — after 10 sync attempts it moves to
`retry`, contradicting the claim that such a slot lands in `add` on every
tick. -/
theorem slot_above_ten_counterexample :
    (∀ slot, lookupSlot wLockC10.code_slots 11 = some slot →
      desiredActive slot wNowC10 = true) ∧
    11 ∉ (wLockC10.get_slots_needing_sync (buildSnapshot wPhysC10)
      wNowC10).1.add ∧
    11 ∈ (wLockC10.get_slots_needing_sync (buildSnapshot wPhysC10)
      wNowC10).1.retry := by
  refine ⟨?_, by decide, by decide⟩
  intro slot hl
  have h3 : wSlotC10 = slot :=
    Option.some.inj ((rfl :
      lookupSlot wLockC10.code_slots 11 = some wSlotC10).symm.trans hl)
  rw [← h3]
  decide

/-- Lock used by the C10 witness: slot 11 active and valid with a fresh
sync counter. -/
def wLockC10w : SmartLockManagerLock :=
  { lock_name := "Gate B"
    lock_entity_id := "lock.gate_b"
    slots := 12
    code_slots :=
      [(11, { slot_number := 11, pin_code := some "4321",
              is_active := true })] }

/-- C10 witness: the amended specification at a concrete lock and
physical state. -/
theorem snapshot_bound_spec_holds_witness :
    SnapshotBoundSpec wLockC10w wPhysC10 wNowC10 :=
  snapshot_bound_spec_holds wLockC10w wPhysC10 wNowC10 (by decide)

end SmartLockManager
